import Mathlib

/-!
Verification of the quiz session state machine of `src/client/src/Page/main/Quiz.tsx`
(frontend_coliseum). The component holds a `QuizState` (questions with optional
user answers, current index, score, difficulty) and mutates it through
`fetchQuestions` (fresh construction), `recoverQuizState` (resume from a
persisted localStorage snapshot), `handleAnswer`, `nextQuestion` and
`handleComplete`. Each handler is embedded below as a pure function on the
state; the external collaborators (HTTP fetch, localStorage, Firestore, react
navigation) are modelled by explicit inputs and observable-effect records.
JavaScript numbers in the data are modelled as `Int` (all values involved are
small integers); the floating-point `averageScore` quotient computed inside
`handleComplete` is not given a value in the model, only the fact that an
incremental update (games +1, score +session.score) was applied.
-/

set_option autoImplicit false

namespace Coliseum

/-- The difficulty tier, `"easy" | "medium" | "hard"` in `types.ts`. -/
inductive Difficulty
  | easy
  | medium
  | hard
deriving DecidableEq, Repr

/-- A quiz item as served by the question source (interface `Question`):
difficulty tier, prompt text, answer options, index of the correct option,
explanation. The mongo `_id` is irrelevant to the session machine and omitted. -/
structure Question where
  difficulty : Difficulty
  text : String
  options : List String
  correctAnswer : Int
  explanation : String
deriving DecidableEq, Repr

/-- `Question & { userAnswer?: number }`: a question plus the optional
recorded answer; `none` models the absent / `undefined` property. -/
structure AnsweredQuestion extends Question where
  userAnswer : Option Int
deriving DecidableEq, Repr

/-- The component state `QuizState` of `Quiz.tsx` (lines 11-16). -/
structure QuizState where
  questions : List AnsweredQuestion
  currentQuestionIndex : Nat
  score : Int
  difficulty : Difficulty
deriving DecidableEq, Repr

/-- Specification-side derived projection: the number of questions whose
recorded answer equals the correct answer
(`count(q in questions where q.userAnswer == q.correctAnswer)`). -/
def countCorrect (qs : List AnsweredQuestion) : Nat :=
  qs.countP (fun q => q.userAnswer = some q.correctAnswer)

/-- `recoverQuizState` (lines 50-62): recompute the score by the source's
`reduce` over the saved questions (JS `===` between `undefined` and a number is
false, hence the `Option` equality), then return the saved state with only the
score replaced. -/
def recoverQuizState (savedState : QuizState) : QuizState :=
  let recoveredScore : Int := savedState.questions.foldl
    (fun score question =>
      if question.userAnswer = some question.correctAnswer then score + 1 else score)
    0
  { savedState with score := recoveredScore }

/-- A freshly fetched question carries no `userAnswer` property. -/
def toUnanswered (q : Question) : AnsweredQuestion :=
  { toQuestion := q, userAnswer := none }

/-- The state built by `fetchQuestions` on a successful response (lines 36-41):
the fetched list, index 0, score 0, the requested difficulty. -/
def freshState (difficulty : Difficulty) (questions : List Question) : QuizState :=
  { questions := questions.map toUnanswered
    currentQuestionIndex := 0
    score := 0
    difficulty := difficulty }

/-- Outcome of the HTTP fetch in `fetchQuestions`: a parsed body, a non-ok
response, or a thrown network error. -/
inductive FetchResponse
  | ok (questions : List Question)
  | httpError
  | networkError
deriving DecidableEq, Repr

/-- `fetchQuestions` (lines 26-48): on `response.ok` the parsed list becomes the
new state unconditionally (there is no emptiness check); otherwise the error is
logged and the state stays `null` (modelled `none`). -/
def fetchQuestions (difficulty : Difficulty) (response : FetchResponse) : Option QuizState :=
  match response with
  | .ok questions => some (freshState difficulty questions)
  | .httpError => none
  | .networkError => none

/-- `handleAnswer` (lines 81-107) as a function of the non-null state. `none`
models the `TypeError` thrown when `currentQuestionIndex` is out of bounds
(`questions[i]` is `undefined` and line 86 reads `.userAnswer` of it); if the
current question is already answered the handler logs and returns, leaving the
state unchanged; otherwise it copies the question list, records the answer at
the current index, and bumps the score iff the answer was correct. -/
def handleAnswer (s : QuizState) (selectedAnswer : Int) : Option QuizState :=
  match s.questions[s.currentQuestionIndex]? with
  | none => none
  | some currentQuestion =>
    if currentQuestion.userAnswer ≠ none then
      some s
    else
      let correct := selectedAnswer = currentQuestion.correctAnswer
      some { s with
        questions := s.questions.set s.currentQuestionIndex
          { currentQuestion with userAnswer := some selectedAnswer }
        score := if correct then s.score + 1 else s.score }

/-- `nextQuestion` (lines 109-124): if the incremented index reaches the list
length the handler invokes `handleComplete` and keeps the previous state
(the boolean records that `handleComplete` was invoked); otherwise it only
increments `currentQuestionIndex`. -/
def nextQuestion (s : QuizState) : QuizState × Bool :=
  let nextIndex := s.currentQuestionIndex + 1
  if s.questions.length ≤ nextIndex then
    (s, true)
  else
    ({ s with currentQuestionIndex := nextIndex }, false)

/-- The incremental profile update `handleComplete` writes on success:
`totalGames` incremented by 1 and `totalScore` incremented by the session
score (lines 145-149). The floating-point `averageScore` value is not
modelled. -/
structure AggregationUpdate where
  gamesDelta : Int
  scoreDelta : Int
deriving DecidableEq, Repr

/-- Observable effects of one `handleComplete` run: whether the profile update
was applied (and with which increments), whether the persisted snapshot was
removed, and the `{score, total}` payload handed to `navigate("/complete")`. -/
structure CompletionOutcome where
  aggregationApplied : Option AggregationUpdate
  snapshotCleared : Bool
  handoff : Option (Int × Nat)
deriving DecidableEq, Repr

/-- `handleComplete` (lines 134-158). `quizState = none` hits the early
`return`. With a state present: if a user is signed in, the profile read and
update run inside `try`; a failure of either (`readOk`/`updateOk` false) is
caught and logged. In every non-early-return path the handler then removes the
snapshot from localStorage and navigates to the result view with
`{score, total: questions.length}`. -/
def handleComplete (quizState : Option QuizState) (user : Option Unit)
    (readOk : Bool) (updateOk : Bool) : CompletionOutcome :=
  match quizState with
  | none => { aggregationApplied := none, snapshotCleared := false, handoff := none }
  | some s =>
    let agg : Option AggregationUpdate :=
      match user with
      | none => none
      | some _ =>
        if readOk && updateOk then
          some { gamesDelta := 1, scoreDelta := s.score }
        else
          none
    { aggregationApplied := agg
      snapshotCleared := true
      handoff := some (s.score, s.questions.length) }

/-- The persisted localStorage slot, abstracted by what `JSON.parse` does to
the stored string and by the shape of the result, as consumed by the resume
effect (lines 64-73):
`wellFormed s` — the string parses to an object of the `QuizState` shape;
`notJson` — the string is not valid JSON (for example `"{"`), so `JSON.parse`
throws a `SyntaxError` at line 66;
`jsonNull` — the string is `"null"`, so reading `.difficulty` of the parse
result throws a `TypeError` at line 66;
`wrongShape d` — the string parses to an object whose `difficulty` property
reads as `d` (`none` for an absent property) but whose `questions` property is
not an array, so that `savedState.questions.reduce` inside `recoverQuizState`
throws a `TypeError` when that branch is taken. -/
inductive StoredSnapshot
  | wellFormed (s : QuizState)
  | notJson
  | jsonNull
  | wrongShape (difficulty : Option Difficulty)
deriving DecidableEq, Repr

/-- What the resume-or-fetch effect does: install a recovered session, remove
the slot and take the fresh-fetch path, or die on an uncaught exception. -/
inductive StartAction
  | resumed (s : QuizState)
  | fetchFresh
  | crashed
deriving DecidableEq, Repr

/-- The resume-or-fetch decision together with whether
`localStorage.removeItem` was called. -/
structure StartResult where
  action : StartAction
  snapshotRemoved : Bool
deriving DecidableEq, Repr

/-- The resume-or-fetch effect (lines 64-73): with no saved state, or with a
parse result whose `difficulty` differs from the requested tier, the slot is
removed and `fetchQuestions` runs; with a tier-matching well-formed snapshot the
state is recovered via `recoverQuizState`; a stored string that fails to parse,
parses to `null`, or tier-matches with a malformed `questions` field makes the
effect throw (there is no try/catch), so neither path is taken. -/
def resumeOrFetch (saved : Option StoredSnapshot) (difficulty : Difficulty) : StartResult :=
  match saved with
  | none => { action := .fetchFresh, snapshotRemoved := true }
  | some .notJson => { action := .crashed, snapshotRemoved := false }
  | some .jsonNull => { action := .crashed, snapshotRemoved := false }
  | some (.wrongShape d) =>
    if d = some difficulty then
      { action := .crashed, snapshotRemoved := false }
    else
      { action := .fetchFresh, snapshotRemoved := true }
  | some (.wellFormed s) =>
    if s.difficulty = difficulty then
      { action := .resumed (recoverQuizState s), snapshotRemoved := false }
    else
      { action := .fetchFresh, snapshotRemoved := true }

/-! Helper lemmas. -/

/-- The reduce inside `recoverQuizState` computes the initial accumulator plus
the derived count of matching answers. -/
theorem foldl_score_eq_countCorrect (qs : List AnsweredQuestion) (init : Int) :
    qs.foldl
      (fun score question =>
        if question.userAnswer = some question.correctAnswer then score + 1 else score)
      init
      = init + (countCorrect qs : Int) := by
  induction qs generalizing init with
  | nil => simp [countCorrect]
  | cons q t ih =>
    simp only [List.foldl_cons, countCorrect, List.countP_cons] at *
    by_cases h : q.userAnswer = some q.correctAnswer
    · simp [h, ih]
      ring
    · simp [h, ih]

/-- Freshly fetched questions carry no answers, so the derived count is 0. -/
theorem countCorrect_fresh (qs : List Question) :
    countCorrect (qs.map toUnanswered) = 0 := by
  rw [countCorrect, List.countP_map, List.countP_eq_zero]
  intro q _
  simp [toUnanswered, Function.comp]

/-- Effect of a point update on a count: replacing the element at `n` removes
that element's contribution and adds the new element's contribution. -/
theorem countP_set {α : Type} (p : α → Bool) :
    ∀ (l : List α) (n : Nat) (q x : α), l[n]? = some q →
      ((l.set n x).countP p + (if p q then 1 else 0) : Nat)
        = l.countP p + (if p x then 1 else 0)
  | [], n, q, x, h => by simp at h
  | a :: t, 0, q, x, h => by
    simp only [List.getElem?_cons_zero, Option.some_inj] at h
    subst h
    simp only [List.set_cons_zero, List.countP_cons]
    omega
  | a :: t, n + 1, q, x, h => by
    simp only [List.getElem?_cons_succ] at h
    have ih := countP_set p t n q x h
    simp only [List.set_cons_succ, List.countP_cons]
    omega

/-! Concrete demonstration data used by witnesses and failing inputs. -/

/-- A two-option question whose correct option index is `correct`. -/
def demoQuestion (correct : Int) : Question :=
  { difficulty := .easy
    text := "2 + 2 = ?"
    options := ["4", "5"]
    correctAnswer := correct
    explanation := "arithmetic" }

/-- A 3-question snapshot with answers [correct, wrong, unanswered] and an
arbitrary embedded (stale) score. -/
def demoSnapshot3 (staleScore : Int) : QuizState :=
  { questions :=
      [{ toQuestion := demoQuestion 0, userAnswer := some 0 },
       { toQuestion := demoQuestion 0, userAnswer := some 1 },
       { toQuestion := demoQuestion 0, userAnswer := none }]
    currentQuestionIndex := 2
    score := staleScore
    difficulty := .easy }

/-- A fresh two-question session. -/
def demoTwoFresh : QuizState := freshState .easy [demoQuestion 0, demoQuestion 1]

/-- `demoTwoFresh` after answering question 0 correctly (the result of
`handleAnswer demoTwoFresh 0`). -/
def demoTwoAnswered : QuizState :=
  { questions :=
      [{ toQuestion := demoQuestion 0, userAnswer := some 0 },
       { toQuestion := demoQuestion 1, userAnswer := none }]
    currentQuestionIndex := 0
    score := 1
    difficulty := .easy }

/-- `demoTwoAnswered` after advancing to question 1. -/
def demoTwoAdvanced : QuizState :=
  { demoTwoAnswered with currentQuestionIndex := 1 }

/-- A finished one-question session sitting at the last index with its only
question answered correctly: the state from which completion is triggered. -/
def demoFinished : QuizState :=
  { questions := [{ toQuestion := demoQuestion 0, userAnswer := some 0 }]
    currentQuestionIndex := 0
    score := 1
    difficulty := .medium }

/-! Claim theorems (batch 1). -/

/-- C2: for every persisted snapshot of matching tier, `recoverQuizState`
recomputes the score solely from the `userAnswer` fields; the embedded score
is discarded and has no effect; in particular the 3-question snapshot with
answers [correct, wrong, undefined] recovers with score 1 for every embedded
stale score. -/
theorem recover_recomputes_score (s : QuizState) (c : Int) :
    (recoverQuizState s).score = (countCorrect s.questions : Int)
      ∧ recoverQuizState { s with score := c } = recoverQuizState s
      ∧ (recoverQuizState (demoSnapshot3 c)).score = 1 := by
  refine ⟨?_, rfl, rfl⟩
  show s.questions.foldl _ 0 = _
  rw [foldl_score_eq_countCorrect]
  ring

/-- C3: answering while the current question already has a recorded answer is
a silent no-op: `handleAnswer` returns the state unchanged (and in particular
does not throw), whatever index is selected. -/
theorem answer_already_answered_noop (s : QuizState) (q : AnsweredQuestion) (a : Int)
    (hq : s.questions[s.currentQuestionIndex]? = some q) (hans : q.userAnswer ≠ none) :
    handleAnswer s a = some s := by
  simp [handleAnswer, hq, hans]

/-- C3 witness: a second answer with a different index on the already-answered
question 0 of `demoTwoAnswered` leaves the state unchanged. -/
theorem answer_already_answered_noop_witness :
    handleAnswer demoTwoAnswered 1 = some demoTwoAnswered :=
  answer_already_answered_noop demoTwoAnswered
    { toQuestion := demoQuestion 0, userAnswer := some 0 } 1 rfl (by decide)

/-- C4 (code bug): the state machine has no `Completed` guard. From
`demoFinished` (last question answered) `nextQuestion` invokes
`handleComplete` and keeps the state unchanged, so a second `nextQuestion`
call invokes `handleComplete` again; each `handleComplete` run with a signed-in
user and successful I/O applies the profile aggregation update
(games +1, score +1) anew. The claimed repeat-call no-op does not hold. -/
theorem advance_after_completion_retriggers :
    nextQuestion demoFinished = (demoFinished, true)
      ∧ nextQuestion (nextQuestion demoFinished).1 = (demoFinished, true)
      ∧ (handleComplete (some demoFinished) (some ()) true true).aggregationApplied
          = some { gamesDelta := 1, scoreDelta := 1 } :=
  ⟨rfl, rfl, rfl⟩

/-- C5 (code bug): `fetchQuestions` performs no emptiness check: an ok response
carrying an empty list constructs a zero-question session instead of rejecting
it. -/
theorem fetch_empty_constructs_session :
    fetchQuestions .easy (.ok []) =
      some { questions := [], currentQuestionIndex := 0, score := 0, difficulty := .easy } :=
  rfl

/-- C6: a well-formed persisted snapshot whose tier differs from the requested
tier is removed from the store and the fresh-fetch path is taken. -/
theorem tier_mismatch_discards_and_fetches (s : QuizState) (d : Difficulty)
    (h : s.difficulty ≠ d) :
    resumeOrFetch (some (.wellFormed s)) d =
      { action := .fetchFresh, snapshotRemoved := true } := by
  simp [resumeOrFetch, h]

/-- C6 witness: an easy-tier snapshot with requested tier hard takes the
fresh-fetch path and removes the snapshot. -/
theorem tier_mismatch_discards_and_fetches_witness :
    resumeOrFetch (some (.wellFormed (demoSnapshot3 0))) .hard =
      { action := .fetchFresh, snapshotRemoved := true } :=
  tier_mismatch_discards_and_fetches (demoSnapshot3 0) .hard (by decide)

/-- C7 (code bug): a structurally malformed snapshot is not handled: a stored
string that is not valid JSON, or that parses to `null`, makes the resume
effect throw (no fresh fetch, snapshot left in place), contradicting the
claimed fallback to "no resumable session". -/
theorem malformed_snapshot_crashes :
    resumeOrFetch (some .notJson) .easy = { action := .crashed, snapshotRemoved := false }
      ∧ resumeOrFetch (some .jsonNull) .easy =
          { action := .crashed, snapshotRemoved := false }
      ∧ resumeOrFetch (some (.wrongShape (some .easy))) .easy =
          { action := .crashed, snapshotRemoved := false } :=
  ⟨rfl, rfl, rfl⟩

/-- C8: whenever `handleComplete` runs on a live session, whatever the user
identity and the outcomes of the profile read and update, the persisted
snapshot is removed and the `{score, total}` payload is handed to the result
view. -/
theorem completion_clears_and_hands_off (s : QuizState) (user : Option Unit)
    (readOk updateOk : Bool) :
    (handleComplete (some s) user readOk updateOk).snapshotCleared = true
      ∧ (handleComplete (some s) user readOk updateOk).handoff
          = some (s.score, s.questions.length) :=
  ⟨rfl, rfl⟩

/-- C10: `recoverQuizState` replaces only the score: the question list (with
every recorded answer), the current index and the difficulty of the recovered
session are exactly those of the snapshot. -/
theorem recover_frame (s : QuizState) :
    (recoverQuizState s).questions = s.questions
      ∧ (recoverQuizState s).currentQuestionIndex = s.currentQuestionIndex
      ∧ (recoverQuizState s).difficulty = s.difficulty :=
  ⟨rfl, rfl, rfl⟩

/-! Reachability of session states and the two session invariants. -/

/-- Session states reachable through the component's transitions: fresh
construction from a fetched list, recovery from an arbitrary persisted
snapshot, answering (whenever the handler completes without throwing), and
advancing. -/
inductive Reachable : QuizState → Prop
  | fresh (d : Difficulty) (qs : List Question) : Reachable (freshState d qs)
  | recover (s : QuizState) : Reachable (recoverQuizState s)
  | answer (s s' : QuizState) (a : Int) : Reachable s → handleAnswer s a = some s' →
      Reachable s'
  | advance (s : QuizState) : Reachable s → Reachable (nextQuestion s).1

/-- `handleAnswer` preserves the score projection invariant: recording a fresh
answer adds exactly its contribution to the derived count, and the
already-answered no-op changes nothing. -/
theorem handleAnswer_score (s s' : QuizState) (a : Int)
    (heq : handleAnswer s a = some s')
    (hinv : s.score = (countCorrect s.questions : Int)) :
    s'.score = (countCorrect s'.questions : Int) := by
  unfold handleAnswer at heq
  split at heq
  · exact Option.noConfusion heq
  rename_i q hq
  split at heq
  · injection heq with heq
    subst heq
    exact hinv
  rename_i hans
  rw [not_not] at hans
  injection heq with heq
  subst heq
  have hcount := countP_set
    (fun x => x.userAnswer = some x.correctAnswer)
    s.questions s.currentQuestionIndex q { q with userAnswer := some a } hq
  simp only [countCorrect] at hinv hcount ⊢
  simp only [hans] at hcount
  by_cases hcorr : a = q.correctAnswer
  · simp only [hcorr] at hcount ⊢
    simp at hcount ⊢
    omega
  · simp [hcorr] at hcount ⊢
    omega

/-- `nextQuestion` never changes the question list or the score. -/
theorem nextQuestion_score_questions (s : QuizState) :
    (nextQuestion s).1.questions = s.questions ∧ (nextQuestion s).1.score = s.score := by
  by_cases h : s.questions.length ≤ s.currentQuestionIndex + 1
  · simp [nextQuestion, h]
  · simp [nextQuestion, h]

/-- C1: in every reachable session state — after any sequence of fresh
construction, answering, advancing and snapshot recovery — the score equals
the number of questions whose recorded answer equals the correct answer. -/
theorem score_matches_answers (s : QuizState) (h : Reachable s) :
    s.score = (countCorrect s.questions : Int) := by
  induction h with
  | fresh d qs =>
    show (0 : Int) = (countCorrect ((freshState d qs).questions) : Int)
    rw [show (freshState d qs).questions = qs.map toUnanswered from rfl, countCorrect_fresh]
    rfl
  | recover s =>
    show s.questions.foldl _ 0 = (countCorrect s.questions : Int)
    rw [foldl_score_eq_countCorrect]
    ring
  | answer s s' a hs heq ih => exact handleAnswer_score s s' a heq ih
  | advance s hs ih =>
    have hp := nextQuestion_score_questions s
    rw [hp.2, hp.1]
    exact ih

/-- C1 witness: the invariant instantiated at the concrete reachable state
obtained by answering the first question of a fresh two-question session. -/
theorem score_matches_answers_witness :
    demoTwoAnswered.score = (countCorrect demoTwoAnswered.questions : Int) :=
  score_matches_answers demoTwoAnswered
    (Reachable.answer demoTwoFresh demoTwoAnswered 0
      (Reachable.fresh .easy [demoQuestion 0, demoQuestion 1]) (by decide))

/-- Every question strictly before the current index carries a recorded
answer. -/
def AnsweredBeforeCurrent (s : QuizState) : Prop :=
  ∀ i, i < s.currentQuestionIndex →
    ∃ q, s.questions[i]? = some q ∧ q.userAnswer ≠ none

/-- Session states reachable through runs in which every advance respects its
precondition (the current question is answered first); recovery applies to
snapshots the machine itself reached and persisted. -/
inductive ReachableD : QuizState → Prop
  | fresh (d : Difficulty) (qs : List Question) : ReachableD (freshState d qs)
  | recover (s : QuizState) : ReachableD s → ReachableD (recoverQuizState s)
  | answer (s s' : QuizState) (a : Int) : ReachableD s → handleAnswer s a = some s' →
      ReachableD s'
  | advance (s : QuizState) (q : AnsweredQuestion) : ReachableD s →
      s.questions[s.currentQuestionIndex]? = some q → q.userAnswer ≠ none →
      ReachableD (nextQuestion s).1

/-- `handleAnswer` preserves the answered-before-current property: the index
does not move and only the question at the current index is rewritten. -/
theorem handleAnswer_answeredBefore (s s' : QuizState) (a : Int)
    (heq : handleAnswer s a = some s') (hinv : AnsweredBeforeCurrent s) :
    AnsweredBeforeCurrent s' := by
  unfold handleAnswer at heq
  split at heq
  · exact Option.noConfusion heq
  rename_i q hq
  split at heq
  · injection heq with heq
    subst heq
    exact hinv
  injection heq with heq
  subst heq
  intro i hi
  rcases hinv i hi with ⟨p, hp, hpans⟩
  refine ⟨p, ?_, hpans⟩
  show (s.questions.set s.currentQuestionIndex _)[i]? = some p
  rw [List.getElem?_set_ne (Nat.ne_of_gt hi)]
  exact hp

/-- C9: in every session state reachable through precondition-respecting runs,
no question before the current one was skipped: each has a recorded answer. -/
theorem no_question_skipped (s : QuizState) (h : ReachableD s) :
    AnsweredBeforeCurrent s := by
  induction h with
  | fresh d qs =>
    intro i hi
    exact absurd hi (Nat.not_lt_zero i)
  | recover s hs ih =>
    intro i hi
    exact ih i hi
  | answer s s' a hs heq ih => exact handleAnswer_answeredBefore s s' a heq ih
  | advance s q hs hq hans ih =>
    by_cases hlen : s.questions.length ≤ s.currentQuestionIndex + 1
    · have hstay : (nextQuestion s).1 = s := by simp [nextQuestion, hlen]
      rw [hstay]
      exact ih
    · have hstep : (nextQuestion s).1
          = { s with currentQuestionIndex := s.currentQuestionIndex + 1 } := by
        simp [nextQuestion, hlen]
      rw [hstep]
      intro i hi
      rcases Nat.lt_succ_iff_lt_or_eq.mp hi with hlt | heqi
      · exact ih i hlt
      · subst heqi
        exact ⟨q, hq, hans⟩

/-- C9 witness: after answering question 0 of a fresh two-question session and
advancing, question 0 (the only one before the current index) has a recorded
answer. -/
theorem no_question_skipped_witness :
    ∃ q, demoTwoAdvanced.questions[0]? = some q ∧ q.userAnswer ≠ none := by
  have h0 : ReachableD demoTwoFresh :=
    ReachableD.fresh .easy [demoQuestion 0, demoQuestion 1]
  have h1 : ReachableD demoTwoAnswered :=
    ReachableD.answer demoTwoFresh demoTwoAnswered 0 h0 (by decide)
  have h2 : ReachableD demoTwoAdvanced :=
    ReachableD.advance demoTwoAnswered
      { toQuestion := demoQuestion 0, userAnswer := some 0 } h1 rfl (by decide)
  exact no_question_skipped demoTwoAdvanced h2 0 (by decide)

end Coliseum
